import Mathlib

/-!
# Verification of the Hyperbolic MCP remote session manager

A shallow embedding of the repository's SSH session manager (the ssh2-based
variant in full, plus the node-ssh-based variant of `disconnect`, which
differs materially) and of the `rent-gpu-instance` capacity guard and the
`remote-shell` result classification from the tool layer.

Conventions of the embedding:
* JavaScript `string | null` fields become `Option String`; JavaScript
  truthiness of an optional string (`x || y`, `if (password)`) is modelled
  by `truthyOr` / `truthy` (the empty string is falsy).
* A promise that resolves with a string is `Except.ok`, a promise that
  rejects is `Except.error`.
* The filesystem and the transport are collaborators: the filesystem is a
  record of pure functions, and the single event that settles a connect
  attempt (ready / error / neither-within-the-timeout) or a command channel
  (exec callback error / streamed data then close) is passed as a value.
* Spies: connect results record the list of transport open attempts with
  the credential used, the number of `fs.existsSync` calls and of
  `fs.readFileSync` calls; execute results record the number of channel
  open (`exec`) calls; the rental handler records the number of calls to
  the marketplace creation endpoint.
-/

namespace HyperMCP

/-- Decidable equality of settled promises, used to evaluate concrete
runs of the model. -/
instance {α β : Type} [DecidableEq α] [DecidableEq β] : DecidableEq (Except α β)
  | Except.ok a, Except.ok b =>
      if h : a = b then isTrue (h ▸ rfl)
      else isFalse (fun he => h (Except.ok.inj he))
  | Except.error a, Except.error b =>
      if h : a = b then isTrue (h ▸ rfl)
      else isFalse (fun he => h (Except.error.inj he))
  | Except.ok a, Except.error b => isFalse (fun he => Except.noConfusion he)
  | Except.error a, Except.ok b => isFalse (fun he => Except.noConfusion he)

/-- A resolved authentication credential as placed into `connectOptions`:
either `connectOptions.password` or `connectOptions.privateKey`. -/
inductive Cred where
  | password (pw : String)
  | key (data : String)
deriving DecidableEq, Repr

/-- The environment collaborator: `process.env.SSH_PRIVATE_KEY_PATH` and
`process.env.HOME` (absent variables are `none`). -/
structure EnvModel where
  sshPrivateKeyPath : Option String
  home : Option String

/-- The filesystem collaborator: `fs.existsSync` and `fs.readFileSync`
(the latter returns the file contents, or the stringified thrown error). -/
structure FSModel where
  existsSync : String → Bool
  readFileSync : String → Except String String

/-- The mutable fields of the `SSHManager` singleton:
`sshClient` (modelled by whether it is non-null), `connected`, `host`,
`username`. -/
structure SSHState where
  sshClientPresent : Bool
  connected : Bool
  host : Option String
  username : Option String
deriving DecidableEq, Repr

/-- The state right after construction: `sshClient = null`,
`connected = false`, `host = null`, `username = null`. -/
def initialState : SSHState :=
  { sshClientPresent := false, connected := false, host := none, username := none }

/-- JavaScript `a || b` for an optional string `a`: the empty string is
falsy, so it falls through to `b`. -/
def truthyOr : Option String → String → String
  | some s, b => if s = "" then b else s
  | none, b => b

/-- JavaScript truthiness of an optional string (`if (password)`). -/
def truthy : Option String → Bool
  | some s => !(s == "")
  | none => false

/-- JavaScript `s.startsWith(p)`: is `p` a prefix of `s`?  (Modelled on
the character list so that it evaluates by kernel reduction.) -/
def jsStartsWith (s p : String) : Bool :=
  p.data.isPrefixOf s.data

/-- `p.replace(/^~/, home)`: replace one leading tilde by `home`. -/
def expandTilde (home p : String) : String :=
  if jsStartsWith p "~" then home ++ String.mk (p.data.drop 1) else p

/-- `isConnected()` of the ssh2 variant:
`this.connected && this.sshClient !== null`. -/
def isConnected (s : SSHState) : Bool :=
  s.connected && s.sshClientPresent

/-- `getConnectionInfo()`: both variants render
`Connected to ${this.host} as ${this.username}` when connected (a null
field would be interpolated as the text `null`), else `Not connected`. -/
def getConnectionInfo (s : SSHState) : String :=
  if isConnected s then
    "Connected to " ++ optText s.host ++ " as " ++ optText s.username
  else
    "Not connected"
where
  /-- JavaScript template interpolation of a `string | null` value. -/
  optText : Option String → String
    | some x => x
    | none => "null"

/-- `disconnect()` of the ssh2 variant (part_000 lines 205-212):
`if (this.sshClient) { this.sshClient.end(); }` — the call to `end()` is
not guarded by try/catch, so a throwing close (`closeFault = some msg`)
propagates before the three clearing assignments run.  The `Nat` counts
transport close calls.  Note that `this.sshClient` is never set back to
null. -/
def disconnect (closeFault : Option String) (s : SSHState) :
    Except String (SSHState × Nat) :=
  if s.sshClientPresent then
    match closeFault with
    | some m => Except.error m
    | none =>
        Except.ok
          ({ s with connected := false, host := none, username := none }, 1)
  else
    Except.ok ({ s with connected := false, host := none, username := none }, 0)

/-- `disconnect()` of the node-ssh variant (ssh-manager.ts lines 134-145):
`dispose()` is wrapped in try/catch with errors ignored, so the three
clearing assignments always run, whether or not the close faults.  The
`Nat` counts transport close attempts. -/
def disposeDisconnect (closeFault : Option String) (s : SSHState) :
    SSHState × Nat :=
  ({ s with connected := false, host := none, username := none },
   if s.sshClientPresent then 1 else 0)

/-- Which transport event settles a connect attempt first: the `ready`
event, the `error` event (carrying the already-stringified error message),
or neither within `timeoutMs` (`silent`), in which case the timer fires. -/
inductive TransportSignal where
  | ready
  | fault (msg : String)
  | silent
deriving DecidableEq, Repr

/-- Everything observable about one `connect` call: the settled promise
(`Except.error` = rejection), the manager state afterwards, the list of
transport open attempts (with the credential placed in `connectOptions`),
and the numbers of `fs.existsSync` / `fs.readFileSync` calls. -/
structure ConnectResult where
  outcome : Except String String
  state : SSHState
  opens : List Cred
  statCalls : Nat
  readCalls : Nat
deriving DecidableEq, Repr

/-- The key path `connect` resolves when no truthy password is given:
the explicit path if truthy, else `SSH_PRIVATE_KEY_PATH` if truthy, else
`~/.ssh/id_rsa`; the environment default is tilde-expanded once where it
is computed and the chosen path is tilde-expanded once more (part_000
lines 60-81). -/
def resolvedKeyPath (env : EnvModel) (privateKeyPath : Option String) : String :=
  let homeStr := env.home.getD ""
  let defaultKeyPath := truthyOr env.sshPrivateKeyPath "~/.ssh/id_rsa"
  let expandedDefaultKeyPath := expandTilde homeStr defaultKeyPath
  expandTilde homeStr (truthyOr privateKeyPath expandedDefaultKeyPath)

/-- The promise block of the ssh2 `connect` (part_000 lines 96-131), run
once the credential is resolved: the `!this.sshClient` guard, then exactly
one of the timer / `ready` / `error` handlers settles the promise.  On
`ready` the manager records `connected`, `host`, `username` and resolves
the success string; on `error` it clears `connected` and rejects; if
neither arrives the timer calls `end()` and rejects the timeout message.
`statC` / `readC` thread the filesystem spy counts through. -/
def attemptTransport (s2 : SSHState) (cred : Cred) (statC readC : Nat)
    (host username : String) (timeoutMs : Nat) (signal : TransportSignal) :
    ConnectResult :=
  if !s2.sshClientPresent then
    { outcome := Except.error "SSH client not initialized"
      state := s2, opens := [], statCalls := statC, readCalls := readC }
  else
    match signal with
    | TransportSignal.ready =>
        { outcome :=
            Except.ok ("Successfully connected to " ++ host ++ " as " ++ username)
          state := { s2 with connected := true, host := some host,
                             username := some username }
          opens := [cred], statCalls := statC, readCalls := readC }
    | TransportSignal.fault msg =>
        { outcome := Except.error ("SSH Connection Error: " ++ msg)
          state := { s2 with connected := false }
          opens := [cred], statCalls := statC, readCalls := readC }
    | TransportSignal.silent =>
        { outcome :=
            Except.error
              ("SSH Connection Error: Connection timeout after "
                ++ toString timeoutMs ++ "ms")
          state := s2
          opens := [cred], statCalls := statC, readCalls := readC }

/-- `connect` of the ssh2 variant (part_000 lines 45-142).  Steps: await
`disconnect()` (a throw there lands in the outer catch, which sets
`connected = false` and resolves an `SSH Connection Error` string);
`this.sshClient = new Client()`; resolve the credential — a truthy
password is used as-is and the key branch is skipped entirely, otherwise
the key path is resolved, checked with `existsSync` (resolving an
`SSH Key Error: Key file not found` string if absent) and read (resolving
an `SSH Key Error: Failed to read` string if the read throws); finally the
transport is opened and the promise block settles per `signal`. -/
def connect (env : EnvModel) (fs : FSModel) (closeFault : Option String)
    (host username : String) (password privateKeyPath : Option String)
    (timeoutMs : Nat) (signal : TransportSignal) (s : SSHState) :
    ConnectResult :=
  match disconnect closeFault s with
  | Except.error m =>
      { outcome := Except.ok ("SSH Connection Error: " ++ m)
        state := { s with connected := false }
        opens := [], statCalls := 0, readCalls := 0 }
  | Except.ok (s1, _) =>
      let s2 : SSHState := { s1 with sshClientPresent := true }
      if truthy password then
        attemptTransport s2 (Cred.password (password.getD "")) 0 0
          host username timeoutMs signal
      else
        let expandedKeyPath := resolvedKeyPath env privateKeyPath
        if fs.existsSync expandedKeyPath then
          match fs.readFileSync expandedKeyPath with
          | Except.ok data =>
              attemptTransport s2 (Cred.key data) 1 1
                host username timeoutMs signal
          | Except.error e =>
              { outcome :=
                  Except.ok ("SSH Key Error: Failed to read key file "
                    ++ expandedKeyPath ++ ": " ++ e)
                state := s2, opens := [], statCalls := 1, readCalls := 1 }
        else
          { outcome :=
              Except.ok ("SSH Key Error: Key file not found at "
                ++ expandedKeyPath)
            state := s2, opens := [], statCalls := 1, readCalls := 0 }

/-- How one `execute` call unfolds once the guard passes: either the
`exec` callback reports an error, or the command runs, streaming chunks on
the output and error streams and closing with an exit code. -/
inductive ChannelBehavior where
  | execErr (msg : String)
  | execThrow (msg : String)
  | run (code : Int) (outData errData : List String)

/-- Everything observable about one `execute` call: the resolved string,
the manager state afterwards, and the number of channel open (`exec`)
calls made on the transport. -/
structure ExecResult where
  output : String
  state : SSHState
  channelOpens : Nat
deriving DecidableEq, Repr

/-- `execute` of the ssh2 variant (part_000 lines 148-200).  The guard
`!this.isConnected() || !this.sshClient` resolves the not-connected
message without touching the transport.  Otherwise `exec` is called: a
callback error clears `connected` and resolves `SSH Command Error: ...`;
a synchronous throw is caught and resolves `SSH Execution Error: ...`;
otherwise both streams are accumulated by `+=` and, at `close`, a
non-empty `stderr` selects `Error: ${stderr}\nOutput: ${stdout}` while an
empty one selects the plain `stdout` — the exit code passed to `close` is
never consulted. -/
def execute (s : SSHState) (command : String) (b : ChannelBehavior) :
    ExecResult :=
  if !(isConnected s) || !s.sshClientPresent then
    { output := "Error: No active SSH connection. Please connect first."
      state := s, channelOpens := 0 }
  else
    match b with
    | ChannelBehavior.execErr msg =>
        { output := "SSH Command Error: " ++ msg
          state := { s with connected := false }, channelOpens := 1 }
    | ChannelBehavior.execThrow msg =>
        { output := "SSH Execution Error: " ++ msg
          state := s, channelOpens := 1 }
    | ChannelBehavior.run _code outData errData =>
        let stdout := outData.foldl (fun acc c => acc ++ c) ""
        let stderr := errData.foldl (fun acc c => acc ++ c) ""
        { output :=
            if stderr ≠ "" then "Error: " ++ stderr ++ "\n" ++ "Output: " ++ stdout
            else stdout
          state := s, channelOpens := 1 }

/-- The result classification of the `remote-shell` tool handler
(index.ts lines 1086-1094): a result is an error iff it starts with
`Error:` or with `SSH Command Error:`. -/
def remoteShellIsError (result : String) : Bool :=
  jsStartsWith result "Error:" || jsStartsWith result "SSH Command Error:"

/-- The `status` field the `remote-shell` tool reports for a result. -/
def remoteShellStatus (result : String) : String :=
  if remoteShellIsError result then "error" else "success"

/-- One marketplace candidate entry as consumed by `rent-gpu-instance`
(index.ts lines 653-671): `cluster_name`, `id`, and the possibly-absent
GPU counters. -/
structure MarketInstance where
  cluster_name : String
  id : String
  gpus_total : Option Int
  gpus_reserved : Option Int
deriving DecidableEq, Repr

/-- Everything observable about one `rent-gpu-instance` call: the text of
the returned content block, its `isError` flag, and the number of calls
made to the `/marketplace/instances/create` endpoint. -/
structure RentResult where
  text : String
  isError : Bool
  createCalls : Nat
deriving DecidableEq, Repr

/-- The catch-all error payload of the tool handler:
`JSON.stringify(\x7bstatus: "error", error\x7d, null, 2)`. -/
def jsonErrorText (msg : String) : String :=
  "\x7b\n  \"status\": \"error\",\n  \"error\": \"" ++ msg ++ "\"\n\x7d"

/-- The guarded `rent-gpu-instance` handler (index.ts lines 636-702).
The marketplace list is re-fetched (`none` models a response without an
`instances` array, whose throw lands in the catch); the entry with
matching `cluster_name` and `id` is located (`CandidateNotFound` text if
absent); `availableGPUCount = (gpus_total || 0) - (gpus_reserved || 0)` is
compared against the request (`InsufficientCapacity` text if smaller);
only then is the creation endpoint invoked, exactly once.  The success
payload is assembled from the creation response and candidate hardware
fields by out-of-scope formatting plumbing; it enters here as the opaque
`successText`. -/
def rentGpuInstance (instances : Option (List MarketInstance))
    (cluster_name node_name : String) (gpu_count : Int)
    (successText : String) : RentResult :=
  match instances with
  | none =>
      { text := jsonErrorText "Invalid response format from Hyperbolic API"
        isError := true, createCalls := 0 }
  | some insts =>
      match insts.find? (fun i => i.cluster_name == cluster_name && i.id == node_name) with
      | none =>
          { text := "Error: The specified cluster (" ++ cluster_name
              ++ ") or node (" ++ node_name
              ++ ") was not found. Please check the names and try again."
            isError := true, createCalls := 0 }
      | some inst =>
          let availableGPUCount : Int :=
            inst.gpus_total.getD 0 - inst.gpus_reserved.getD 0
          if availableGPUCount < gpu_count then
            { text := "Error: The requested number of GPUs ("
                ++ toString gpu_count ++ ") exceeds the available GPUs ("
                ++ toString availableGPUCount ++ ") on this cluster."
              isError := true, createCalls := 0 }
          else
            { text := successText, isError := false, createCalls := 1 }

/-- The states of the session manager singleton reachable from
construction through any sequence of `connect`, `execute` and (successful)
`disconnect` calls; a `disconnect` whose transport close throws leaves the
state it found, which is already reachable. -/
inductive Reachable : SSHState → Prop where
  | init : Reachable initialState
  | connectStep (env : EnvModel) (fs : FSModel) (closeFault : Option String)
      (host username : String) (password privateKeyPath : Option String)
      (timeoutMs : Nat) (signal : TransportSignal) {s : SSHState} :
      Reachable s →
      Reachable (connect env fs closeFault host username password
        privateKeyPath timeoutMs signal s).state
  | executeStep (command : String) (b : ChannelBehavior) {s : SSHState} :
      Reachable s → Reachable (execute s command b).state
  | disconnectStep (closeFault : Option String) {s s' : SSHState} {n : Nat} :
      Reachable s → disconnect closeFault s = Except.ok (s', n) →
      Reachable s'

/-- Concrete environment used by witnesses: no `SSH_PRIVATE_KEY_PATH`,
`HOME = /home/u`. -/
def envNoKey : EnvModel := ⟨none, some "/home/u"⟩

/-- Concrete filesystem on which no path exists. -/
def fsNoFile : FSModel := ⟨fun _ => false, fun _ => Except.error "read error"⟩

/-- Concrete filesystem on which every path exists and reads succeed. -/
def fsWithKey : FSModel := ⟨fun _ => true, fun _ => Except.ok "KEYDATA"⟩

/-! ## Helper lemmas -/

lemma string_append_eq_empty (a b : String) : a ++ b = "" ↔ a = "" ∧ b = "" := by
  constructor
  · intro h
    have hd : (a ++ b).data = [] := by rw [h]
    rw [String.data_append] at hd
    have h2 := List.append_eq_nil.mp hd
    exact ⟨String.ext h2.1, String.ext h2.2⟩
  · rintro ⟨h1, h2⟩
    subst h1
    subst h2
    decide

lemma foldl_append_eq_empty (l : List String) (acc : String) :
    l.foldl (fun a c => a ++ c) acc = "" ↔ acc = "" ∧ ∀ c ∈ l, c = "" := by
  induction l generalizing acc with
  | nil => simp
  | cons c t ih =>
      simp only [List.foldl_cons, ih, string_append_eq_empty, List.mem_cons]
      constructor
      · rintro ⟨⟨h1, h2⟩, h3⟩
        exact ⟨h1, fun x hx => hx.elim (fun he => he ▸ h2) (h3 x)⟩
      · rintro ⟨h1, h2⟩
        exact ⟨⟨h1, h2 c (Or.inl rfl)⟩, fun x hx => h2 x (Or.inr hx)⟩

lemma data_get1_append (a p : String) (c : Char) (h : a.data.get? 1 = some c) :
    (a ++ p).data.get? 1 = some c := by
  have hlt : 1 < a.data.length := (List.get?_eq_some.mp h).1
  rw [String.data_append, List.get?_append hlt]
  exact h

lemma ne_of_data_get1 (a b : String) (x y : Char) (hx : a.data.get? 1 = some x)
    (hy : b.data.get? 1 = some y) (hxy : x ≠ y) : a ≠ b := by
  intro h
  apply hxy
  have hxy2 : some x = some y := by rw [← hx, ← hy, h]
  exact Option.some.inj hxy2

lemma success_data_get1 (h u : String) :
    ("Successfully connected to " ++ h ++ " as " ++ u).data.get? 1 = some 'u' := by
  have h0 : ("Successfully connected to ").data.get? 1 = some 'u' := by decide
  exact data_get1_append _ u _ (data_get1_append _ " as " _ (data_get1_append _ h _ h0))

lemma keyNotFound_ne_success (p h u : String) :
    "SSH Key Error: Key file not found at " ++ p
      ≠ "Successfully connected to " ++ h ++ " as " ++ u := by
  have h0 : ("SSH Key Error: Key file not found at ").data.get? 1 = some 'S' := by decide
  exact ne_of_data_get1 _ _ 'S' 'u' (data_get1_append _ p _ h0) (success_data_get1 h u)
    (by decide)

lemma readFail_ne_success (p e h u : String) :
    "SSH Key Error: Failed to read key file " ++ p ++ ": " ++ e
      ≠ "Successfully connected to " ++ h ++ " as " ++ u := by
  have h0 : ("SSH Key Error: Failed to read key file ").data.get? 1 = some 'S' := by decide
  exact ne_of_data_get1 _ _ 'S' 'u'
    (data_get1_append _ e _ (data_get1_append _ ": " _ (data_get1_append _ p _ h0)))
    (success_data_get1 h u) (by decide)

lemma connErr_ne_success (m h u : String) :
    "SSH Connection Error: " ++ m
      ≠ "Successfully connected to " ++ h ++ " as " ++ u := by
  have h0 : ("SSH Connection Error: ").data.get? 1 = some 'S' := by decide
  exact ne_of_data_get1 _ _ 'S' 'u' (data_get1_append _ m _ h0) (success_data_get1 h u)
    (by decide)

lemma success_ne_keyNotFound (h u p : String) :
    "Successfully connected to " ++ h ++ " as " ++ u
      ≠ "SSH Key Error: Key file not found at " ++ p :=
  (keyNotFound_ne_success p h u).symm

/-- A successful `disconnect` always produces the cleared state, whatever
the prior state and close behaviour. -/
lemma disconnect_ok_state {closeFault : Option String} {s s2 : SSHState} {n : Nat}
    (h : disconnect closeFault s = Except.ok (s2, n)) :
    s2 = { s with connected := false, host := none, username := none } := by
  obtain ⟨cp, cc, ch, cu⟩ := s
  cases cp with
  | false =>
      cases closeFault with
      | none => simp [disconnect] at h; exact h.1.symm
      | some m => simp [disconnect] at h; exact h.1.symm
  | true =>
      cases closeFault with
      | none => simp [disconnect] at h; exact h.1.symm
      | some m => simp [disconnect] at h

/-- Every state a `connect` call leaves behind either has `connected`
false or holds a client handle. -/
lemma connect_state_handle (env : EnvModel) (fs : FSModel)
    (closeFault : Option String) (host username : String)
    (password privateKeyPath : Option String) (timeoutMs : Nat)
    (signal : TransportSignal) (s : SSHState) :
    (connect env fs closeFault host username password privateKeyPath
        timeoutMs signal s).state.connected = false
    ∨ (connect env fs closeFault host username password privateKeyPath
        timeoutMs signal s).state.sshClientPresent = true := by
  unfold connect
  cases hd : disconnect closeFault s with
  | error m => simp
  | ok pair =>
      obtain ⟨s1, n⟩ := pair
      simp only []
      by_cases hpw : truthy password
      · simp only [hpw, if_true]
        cases signal <;> simp [attemptTransport]
      · simp only [hpw, if_false]
        by_cases hex : fs.existsSync (resolvedKeyPath env privateKeyPath)
        · simp only [hex, if_true]
          cases hr : fs.readFileSync (resolvedKeyPath env privateKeyPath) with
          | ok data => cases signal <;> simp [attemptTransport]
          | error e => simp
        · simp [hex]

/-- An `execute` call either leaves the state unchanged or merely clears
`connected`. -/
lemma execute_state_cases (s : SSHState) (command : String)
    (b : ChannelBehavior) :
    (execute s command b).state = s
    ∨ (execute s command b).state = { s with connected := false } := by
  unfold execute
  by_cases hg : (!(isConnected s) || !s.sshClientPresent) = true
  · simp [hg]
  · simp only [hg, if_false]
    cases b <;> simp

/-! ## Claim theorems -/

/-- C3: for every rental request, the guard compares
`available = total − reserved` of the matching candidate with the request:
with no matching candidate it returns the not-found error and never calls
the creation endpoint; with `available < requested` it returns the
insufficient-capacity error carrying both counts and never calls the
creation endpoint; with `requested ≤ available` it calls the creation
endpoint exactly once. -/
theorem rent_guard_capacity (cluster node : String)
    (insts : List MarketInstance) (req : Int) (successText : String) :
    (insts.find? (fun i => i.cluster_name == cluster && i.id == node) = none →
      rentGpuInstance (some insts) cluster node req successText
        = { text := "Error: The specified cluster (" ++ cluster
              ++ ") or node (" ++ node
              ++ ") was not found. Please check the names and try again."
            isError := true, createCalls := 0 })
    ∧ (∀ inst : MarketInstance,
        insts.find? (fun i => i.cluster_name == cluster && i.id == node) = some inst →
        inst.gpus_total.getD 0 - inst.gpus_reserved.getD 0 < req →
        rentGpuInstance (some insts) cluster node req successText
          = { text := "Error: The requested number of GPUs ("
                ++ toString req ++ ") exceeds the available GPUs ("
                ++ toString (inst.gpus_total.getD 0 - inst.gpus_reserved.getD 0)
                ++ ") on this cluster."
              isError := true, createCalls := 0 })
    ∧ (∀ inst : MarketInstance,
        insts.find? (fun i => i.cluster_name == cluster && i.id == node) = some inst →
        req ≤ inst.gpus_total.getD 0 - inst.gpus_reserved.getD 0 →
        rentGpuInstance (some insts) cluster node req successText
          = { text := successText, isError := false, createCalls := 1 }) := by
  refine ⟨?_, ?_, ?_⟩
  · intro hf
    simp [rentGpuInstance, hf]
  · intro inst hf hlt
    simp [rentGpuInstance, hf, hlt]
  · intro inst hf hle
    simp [rentGpuInstance, hf, not_lt.mpr hle]

/-- Witness for C3 at the spec's example: a candidate with `total = 8`,
`reserved = 3`; a request for 6 fails with the 6-vs-5 message and zero
creation calls, a request for 5 proceeds with exactly one creation call. -/
theorem rent_guard_capacity_witness :
    rentGpuInstance (some [⟨"c", "n", some 8, some 3⟩]) "c" "n" 6 "ok"
      = { text := "Error: The requested number of GPUs (6) exceeds the available GPUs (5) on this cluster."
          isError := true, createCalls := 0 }
    ∧ rentGpuInstance (some [⟨"c", "n", some 8, some 3⟩]) "c" "n" 5 "ok"
      = { text := "ok", isError := false, createCalls := 1 } := by
  constructor
  · have h := (rent_guard_capacity "c" "n" [⟨"c", "n", some 8, some 3⟩] 6 "ok").2.1
      ⟨"c", "n", some 8, some 3⟩ (by decide) (by decide)
    exact h.trans (by decide)
  · exact (rent_guard_capacity "c" "n" [⟨"c", "n", some 8, some 3⟩] 5 "ok").2.2
      ⟨"c", "n", some 8, some 3⟩ (by decide) (by decide)

/-- C4: on a connected session, a command whose error stream received any
non-empty chunk produces exactly
`Error: ` ++ stderr ++ `\n` ++ `Output: ` ++ stdout (both accumulations
verbatim); with no error-stream bytes it produces the accumulated stdout
alone; and the result is unchanged under any change of the exit code
passed to the close event. -/
theorem execute_stderr_classification (s : SSHState) (command : String)
    (code : Int) (outData errData : List String)
    (h : isConnected s = true) :
    ((∃ c ∈ errData, c ≠ "") →
      (execute s command (ChannelBehavior.run code outData errData)).output
        = "Error: " ++ errData.foldl (fun a c => a ++ c) "" ++ "\n"
          ++ "Output: " ++ outData.foldl (fun a c => a ++ c) "")
    ∧ ((∀ c ∈ errData, c = "") →
      (execute s command (ChannelBehavior.run code outData errData)).output
        = outData.foldl (fun a c => a ++ c) "")
    ∧ (∀ code2 : Int,
      execute s command (ChannelBehavior.run code outData errData)
        = execute s command (ChannelBehavior.run code2 outData errData)) := by
  have hp : s.sshClientPresent = true := by
    revert h
    unfold isConnected
    cases s.connected <;> cases s.sshClientPresent <;> simp
  refine ⟨?_, ?_, fun code2 => rfl⟩
  · rintro ⟨c, hc, hne⟩
    have hstderr : errData.foldl (fun a c => a ++ c) "" ≠ "" := by
      rw [Ne, foldl_append_eq_empty]
      rintro ⟨-, hall⟩
      exact hne (hall c hc)
    simp [execute, h, hp, hstderr]
  · intro hall
    have hstderr : errData.foldl (fun a c => a ++ c) "" = "" :=
      (foldl_append_eq_empty errData "").mpr ⟨rfl, hall⟩
    simp [execute, h, hp, hstderr]

/-- Witness for C4 on a connected session: stderr chunk `warn` and stdout
chunk `out` aggregate to `Error: warn\nOutput: out`. -/
theorem execute_stderr_classification_witness :
    isConnected ⟨true, true, some "h", some "u"⟩ = true
    ∧ (execute ⟨true, true, some "h", some "u"⟩ "cmd"
        (ChannelBehavior.run 0 ["out"] ["warn"])).output
      = "Error: warn\nOutput: out" := by
  refine ⟨by decide, ?_⟩
  have h := (execute_stderr_classification ⟨true, true, some "h", some "u"⟩
    "cmd" 0 ["out"] ["warn"] (by decide)).1 ⟨"warn", by simp, by decide⟩
  exact h.trans (by decide)

/-- C7: `execute` on a disconnected manager resolves the not-connected
error message, leaves the state unchanged, and opens zero channels on the
transport. -/
theorem execute_disconnected_no_channel (s : SSHState) (command : String)
    (b : ChannelBehavior) (h : s.connected = false) :
    execute s command b
      = { output := "Error: No active SSH connection. Please connect first."
          state := s, channelOpens := 0 } := by
  simp [execute, isConnected, h]

/-- Witness for C7 on the freshly constructed manager. -/
theorem execute_disconnected_no_channel_witness :
    initialState.connected = false
    ∧ execute initialState "ls" (ChannelBehavior.run 0 ["x"] [])
      = { output := "Error: No active SSH connection. Please connect first."
          state := initialState, channelOpens := 0 } :=
  ⟨rfl, execute_disconnected_no_channel initialState "ls"
    (ChannelBehavior.run 0 ["x"] []) rfl⟩

/-- C10: success and error outcomes of `execute` are not disjoint as
values: a command on a connected session that writes
`Error: oops\nOutput: hi` to stdout with no stderr bytes returns the very
string a genuine stderr-carrying command returns, and the `remote-shell`
prefix classification marks the successful command as an error. -/
theorem execute_error_shape_collision :
    (execute ⟨true, true, some "h", some "u"⟩ "cmd1"
        (ChannelBehavior.run 0 ["Error: oops\nOutput: hi"] [])).output
      = "Error: oops\nOutput: hi"
    ∧ (execute ⟨true, true, some "h", some "u"⟩ "cmd2"
        (ChannelBehavior.run 0 ["hi"] ["oops"])).output
      = "Error: oops\nOutput: hi"
    ∧ remoteShellStatus "Error: oops\nOutput: hi" = "error"
    ∧ remoteShellIsError "Error: oops\nOutput: hi" = true := by
  refine ⟨by decide, by decide, by decide, by decide⟩

/-- C5 (confirmed): a `connect` with no truthy password whose resolved key
path does not exist resolves (does not reject) the key-not-found message,
makes zero transport open attempts, and performed exactly one existence
check; the client handle field is left set. -/
theorem connect_missing_key_no_transport (env : EnvModel) (fs : FSModel)
    (host username : String) (password privateKeyPath : Option String)
    (timeoutMs : Nat) (signal : TransportSignal) (s : SSHState)
    (hpw : truthy password = false)
    (hex : fs.existsSync (resolvedKeyPath env privateKeyPath) = false) :
    connect env fs none host username password privateKeyPath timeoutMs signal s
      = { outcome := Except.ok ("SSH Key Error: Key file not found at "
            ++ resolvedKeyPath env privateKeyPath)
          state := ⟨true, false, none, none⟩
          opens := [], statCalls := 1, readCalls := 0 } := by
  obtain ⟨cp, cc, ch, cu⟩ := s
  cases cp <;> simp [connect, disconnect, hpw, hex]

/-- Witness for C5: key auth, no explicit path, missing default key file. -/
theorem connect_missing_key_no_transport_witness :
    truthy none = false
    ∧ fsNoFile.existsSync (resolvedKeyPath envNoKey none) = false
    ∧ connect envNoKey fsNoFile none "h" "u" none none 10000
        TransportSignal.ready initialState
      = { outcome :=
            Except.ok "SSH Key Error: Key file not found at /home/u/.ssh/id_rsa"
          state := ⟨true, false, none, none⟩
          opens := [], statCalls := 1, readCalls := 0 } := by
  refine ⟨by decide, by decide, ?_⟩
  have h := connect_missing_key_no_transport envNoKey fsNoFile "h" "u"
    none none 10000 TransportSignal.ready initialState (by decide) (by decide)
  exact h.trans (by decide)

/-- Counterexample to C6 as stated: in the ssh2 variant the transport
close call inside `disconnect` is not guarded, so a faulting close makes
`disconnect` raise instead of completing (the node-ssh variant swallows
the same fault). -/
theorem disconnect_close_fault_raises_cex :
    disconnect (some "boom") ⟨true, true, some "h", some "u"⟩
      = Except.error "boom"
    ∧ (disposeDisconnect (some "boom") ⟨true, true, some "h", some "u"⟩).1
      = ⟨true, false, none, none⟩ := by
  exact ⟨by decide, by decide⟩

/-- C6 (amended): `disconnect` is idempotent and, whenever the transport
close does not fault (ssh2 variant) or unconditionally (node-ssh variant,
whose close is wrapped in try/catch), total: it never raises and always
leaves `connected` false with `host` and `username` cleared. -/
theorem disconnect_idempotent_total :
    (∀ s : SSHState, disconnect none s
        = Except.ok
            ({ s with connected := false, host := none, username := none },
             if s.sshClientPresent then 1 else 0))
    ∧ (∀ s s2 : SSHState, ∀ n : Nat,
        disconnect none s = Except.ok (s2, n) →
        disconnect none s2
          = Except.ok (s2, if s2.sshClientPresent then 1 else 0))
    ∧ (∀ closeFault : Option String, ∀ s : SSHState,
        (disposeDisconnect closeFault s).1
          = { s with connected := false, host := none, username := none }
        ∧ (disposeDisconnect closeFault
            (disposeDisconnect closeFault s).1).1
          = (disposeDisconnect closeFault s).1) := by
  refine ⟨?_, ?_, ?_⟩
  · intro s
    obtain ⟨cp, cc, ch, cu⟩ := s
    cases cp <;> simp [disconnect]
  · intro s s2 n h
    rw [disconnect_ok_state h]
    obtain ⟨cp, cc, ch, cu⟩ := s
    cases cp <;> simp [disconnect]
  · intro closeFault s
    exact ⟨rfl, rfl⟩

/-- Witness for C6: disconnecting a connected manager clears the state,
and a second disconnect on the already-cleared state is a no-op success. -/
theorem disconnect_idempotent_total_witness :
    disconnect none ⟨true, true, some "h", some "u"⟩
      = Except.ok (⟨true, false, none, none⟩, 1)
    ∧ disconnect none ⟨true, false, none, none⟩
      = Except.ok (⟨true, false, none, none⟩, 1) := by
  constructor
  · exact (disconnect_idempotent_total.1 ⟨true, true, some "h", some "u"⟩).trans
      (by decide)
  · exact (disconnect_idempotent_total.2.1 ⟨true, true, some "h", some "u"⟩
      ⟨true, false, none, none⟩ 1 (by decide)).trans (by decide)

/-- C8 (confirmed): whenever a `connect` call resolves the success
outcome, the manager reports `isConnected` and `getConnectionInfo` names
exactly the host and username that were passed to that call. -/
theorem connect_success_reports_info (env : EnvModel) (fs : FSModel)
    (closeFault : Option String) (host username : String)
    (password privateKeyPath : Option String) (timeoutMs : Nat)
    (signal : TransportSignal) (s : SSHState)
    (h : (connect env fs closeFault host username password privateKeyPath
        timeoutMs signal s).outcome
      = Except.ok ("Successfully connected to " ++ host ++ " as " ++ username)) :
    isConnected (connect env fs closeFault host username password
        privateKeyPath timeoutMs signal s).state = true
    ∧ getConnectionInfo (connect env fs closeFault host username password
        privateKeyPath timeoutMs signal s).state
      = "Connected to " ++ host ++ " as " ++ username := by
  cases hd : disconnect closeFault s with
  | error m =>
      rw [connect, hd] at h
      simp only [Except.ok.injEq] at h
      exact absurd h.symm (connErr_ne_success m host username).symm
  | ok pair =>
      obtain ⟨s1, n⟩ := pair
      by_cases hpw : truthy password
      · cases signal <;>
          simp only [connect, hd, hpw, if_true, attemptTransport,
            Bool.not_true, Bool.false_eq_true, if_false] at h ⊢ <;>
          simp_all [isConnected, getConnectionInfo, getConnectionInfo.optText]
      · by_cases hex : fs.existsSync (resolvedKeyPath env privateKeyPath)
        · cases hr : fs.readFileSync (resolvedKeyPath env privateKeyPath) with
          | ok data =>
              cases signal <;>
                simp only [connect, hd, hpw, hex, hr, if_true, if_false,
                  Bool.false_eq_true, attemptTransport, Bool.not_true] at h ⊢ <;>
                simp_all [isConnected, getConnectionInfo, getConnectionInfo.optText]
          | error e =>
              rw [connect, hd] at h
              simp only [hpw, hex, hr, if_true, if_false, Bool.false_eq_true,
                Except.ok.injEq] at h
              exact absurd h (readFail_ne_success _ e host username)
        · rw [connect, hd] at h
          simp only [hpw, hex, if_false, Bool.false_eq_true,
            Except.ok.injEq] at h
          exact absurd h (keyNotFound_ne_success _ host username)

/-- Witness for C8: a successful password connect to `hosty` as `usery`. -/
theorem connect_success_reports_info_witness :
    (connect envNoKey fsWithKey none "hosty" "usery" (some "pw") none 10000
        TransportSignal.ready initialState).outcome
      = Except.ok ("Successfully connected to " ++ "hosty" ++ " as " ++ "usery")
    ∧ getConnectionInfo (connect envNoKey fsWithKey none "hosty" "usery"
        (some "pw") none 10000 TransportSignal.ready initialState).state
      = "Connected to hosty as usery" := by
  refine ⟨by decide, ?_⟩
  have h := connect_success_reports_info envNoKey fsWithKey none "hosty"
    "usery" (some "pw") none 10000 TransportSignal.ready initialState (by decide)
  exact h.2.trans (by decide)

/-- Counterexample to C9 as stated: supplying the explicit password `""`
(a string, but falsy in JavaScript) sends `connect` down the key branch —
the filesystem existence check runs and the outcome is the key-not-found
error, although an explicit password was supplied. -/
theorem connect_empty_password_resolves_key_cex :
    (connect envNoKey fsNoFile none "h" "u" (some "") none 10000
        TransportSignal.ready initialState).outcome
      = Except.ok "SSH Key Error: Key file not found at /home/u/.ssh/id_rsa"
    ∧ (connect envNoKey fsNoFile none "h" "u" (some "") none 10000
        TransportSignal.ready initialState).statCalls = 1 := by
  exact ⟨by decide, by decide⟩

/-- C9 (amended): for every `connect` call supplying a non-empty explicit
password, the credential handed to the transport is that password, no
filesystem existence check or key read happens, and the outcome is never
the key-not-found error, whatever key path was also supplied and whatever
the filesystem contains. -/
theorem connect_password_ignores_keys (env : EnvModel) (fs : FSModel)
    (host username pw : String) (privateKeyPath : Option String)
    (timeoutMs : Nat) (signal : TransportSignal) (s : SSHState)
    (hp : pw ≠ "") :
    (connect env fs none host username (some pw) privateKeyPath timeoutMs
        signal s).statCalls = 0
    ∧ (connect env fs none host username (some pw) privateKeyPath timeoutMs
        signal s).readCalls = 0
    ∧ (connect env fs none host username (some pw) privateKeyPath timeoutMs
        signal s).opens = [Cred.password pw]
    ∧ ∀ path : String,
        (connect env fs none host username (some pw) privateKeyPath timeoutMs
            signal s).outcome
          ≠ Except.ok ("SSH Key Error: Key file not found at " ++ path) := by
  have hpw : truthy (some pw) = true := by
    simp [truthy]
    exact hp
  obtain ⟨cp, cc, ch, cu⟩ := s
  cases cp <;> cases signal <;>
    simp [connect, disconnect, attemptTransport, hpw] <;>
    exact fun path => success_ne_keyNotFound host username path

/-- Witness for C9 at password `pw`: the transport is opened with the
password credential and no filesystem call happens. -/
theorem connect_password_ignores_keys_witness :
    ("pw" : String) ≠ ""
    ∧ (connect envNoKey fsNoFile none "h" "u" (some "pw") none 10000
        TransportSignal.ready initialState).statCalls = 0
    ∧ (connect envNoKey fsNoFile none "h" "u" (some "pw") none 10000
        TransportSignal.ready initialState).opens = [Cred.password "pw"] := by
  refine ⟨by decide, ?_, ?_⟩
  · exact (connect_password_ignores_keys envNoKey fsNoFile "h" "u" "pw" none
      10000 TransportSignal.ready initialState (by decide)).1
  · exact (connect_password_ignores_keys envNoKey fsNoFile "h" "u" "pw" none
      10000 TransportSignal.ready initialState (by decide)).2.2.1

/-- Counterexample to C2 as stated: when neither ready nor fault arrives
within the timeout, the ssh2 `connect` does not resolve a tagged outcome —
it rejects, with a message carrying the same `SSH Connection Error`
prefix as a transport fault (a fault whose message happens to be
`Connection timeout after 10000ms` is literally indistinguishable), and
the client handle field is still set afterwards. -/
theorem connect_timeout_rejects_cex :
    (connect envNoKey fsWithKey none "h" "u" none none 10000
        TransportSignal.silent initialState).outcome
      = Except.error "SSH Connection Error: Connection timeout after 10000ms"
    ∧ (connect envNoKey fsWithKey none "h" "u" none none 10000
        TransportSignal.silent initialState).outcome
      = (connect envNoKey fsWithKey none "h" "u" none none 10000
          (TransportSignal.fault "Connection timeout after 10000ms")
          initialState).outcome
    ∧ (connect envNoKey fsWithKey none "h" "u" none none 10000
        TransportSignal.silent initialState).state.sshClientPresent = true := by
  exact ⟨by decide, by decide, by decide⟩

/-- C2 (amended): every `connect` whose credential resolution reached the
transport (at least one open attempt) and whose transport stays silent
past `timeoutMs` rejects with
`SSH Connection Error: Connection timeout after {timeoutMs}ms`, and
afterwards `connected` is false with `host`/`username` cleared while the
client handle field remains set. -/
theorem connect_timeout_outcome (env : EnvModel) (fs : FSModel)
    (closeFault : Option String) (host username : String)
    (password privateKeyPath : Option String) (timeoutMs : Nat)
    (s : SSHState)
    (h : (connect env fs closeFault host username password privateKeyPath
        timeoutMs TransportSignal.silent s).opens ≠ []) :
    (connect env fs closeFault host username password privateKeyPath
        timeoutMs TransportSignal.silent s).outcome
      = Except.error ("SSH Connection Error: Connection timeout after "
          ++ toString timeoutMs ++ "ms")
    ∧ (connect env fs closeFault host username password privateKeyPath
        timeoutMs TransportSignal.silent s).state
      = ⟨true, false, none, none⟩ := by
  cases hd : disconnect closeFault s with
  | error m =>
      exfalso
      apply h
      simp [connect, hd]
  | ok pair =>
      obtain ⟨s1, n⟩ := pair
      rw [show s1 = { s with connected := false, host := none, username := none }
        from disconnect_ok_state hd] at hd
      by_cases hpw : truthy password
      · constructor <;> simp [connect, hd, hpw, attemptTransport]
      · by_cases hex : fs.existsSync (resolvedKeyPath env privateKeyPath)
        · cases hr : fs.readFileSync (resolvedKeyPath env privateKeyPath) with
          | ok data =>
              constructor <;>
                simp [connect, hd, hpw, hex, hr, attemptTransport]
          | error e =>
              exfalso
              apply h
              simp [connect, hd, hpw, hex, hr]
        · exfalso
          apply h
          simp [connect, hd, hpw, hex]

/-- Witness for C2: a silent transport after successful key resolution. -/
theorem connect_timeout_outcome_witness :
    (connect envNoKey fsWithKey none "h" "u" none none 10000
        TransportSignal.silent initialState).opens ≠ []
    ∧ (connect envNoKey fsWithKey none "h" "u" none none 10000
        TransportSignal.silent initialState).state
      = ⟨true, false, none, none⟩ := by
  refine ⟨by decide, ?_⟩
  exact (connect_timeout_outcome envNoKey fsWithKey none "h" "u" none none
    10000 initialState (by decide)).2

/-- Counterexample to C1 as stated: a failed connect attempt (missing key
file) leaves a reachable state whose `connected` flag is false (state
Disconnected) while the client handle field is still set — the claimed
handle-present-iff-connecting-or-connected equivalence fails. -/
theorem connect_failure_retains_handle_cex :
    (connect envNoKey fsNoFile none "h" "u" none none 10000
        TransportSignal.ready initialState).state
      = ⟨true, false, none, none⟩
    ∧ Reachable (⟨true, false, none, none⟩ : SSHState)
    ∧ isConnected ⟨true, false, none, none⟩ = false := by
  refine ⟨by decide, ?_, by decide⟩
  have h0 := Reachable.connectStep envNoKey fsNoFile none "h" "u" none none
    10000 TransportSignal.ready Reachable.init
  have h1 : (connect envNoKey fsNoFile none "h" "u" none none 10000
      TransportSignal.ready initialState).state
      = (⟨true, false, none, none⟩ : SSHState) := by decide
  exact h1 ▸ h0

/-- C1 (amended): the direction of the invariant the code does maintain —
in every reachable state of the manager, if `connected` is true then a
client handle is held.  (The converse fails: the handle field is never
cleared once any connect attempt has been made.) -/
theorem reachable_connected_implies_handle (s : SSHState)
    (hr : Reachable s) : s.connected = true → s.sshClientPresent = true := by
  induction hr with
  | init =>
      intro hc
      simp [initialState] at hc
  | connectStep env fs closeFault host username password privateKeyPath
      timeoutMs signal hs ih =>
      intro hc
      rcases connect_state_handle env fs closeFault host username password
          privateKeyPath timeoutMs signal _ with hcase | hcase
      · rw [hc] at hcase
        cases hcase
      · exact hcase
  | executeStep command b hs ih =>
      intro hc
      rcases execute_state_cases _ command b with hcase | hcase
      · rw [hcase] at hc ⊢
        exact ih hc
      · rw [hcase] at hc
        simp at hc
  | disconnectStep closeFault hs hok ih =>
      intro hc
      rw [disconnect_ok_state hok] at hc
      simp at hc

/-- Witness for C1 (amended) at a connected reachable state. -/
theorem reachable_connected_implies_handle_witness :
    (⟨true, true, some "h", some "u"⟩ : SSHState).connected = true
    ∧ (⟨true, true, some "h", some "u"⟩ : SSHState).sshClientPresent = true := by
  refine ⟨rfl, ?_⟩
  have h0 := Reachable.connectStep envNoKey fsWithKey none "h" "u" (some "pw")
    none 10000 TransportSignal.ready Reachable.init
  have h1 : (connect envNoKey fsWithKey none "h" "u" (some "pw") none 10000
      TransportSignal.ready initialState).state
      = (⟨true, true, some "h", some "u"⟩ : SSHState) := by decide
  exact reachable_connected_implies_handle _ (h1 ▸ h0) rfl

end HyperMCP
